import Mathlib

set_option maxRecDepth 40000

/-!
Verification development for the StartupMonkey benchmark orchestration harness.

The Python sources under `benchmarking/framework/` are embedded shallowly:

* `collector_client.py` / `CollectorClient.aggregate_metrics` — health-sample
  aggregation over the in-memory buffer (`Sample`, `aggregate_metrics`).
* `locust_collector.py` / `LocustCollector.extract_metrics` — CSV parsing of the
  statistics file of the load generator (`CsvRow`, `extract_metrics`).
* `benchmark_runner.py` / `BenchmarkRunner.run_single_test` and
  `run_benchmark_suite` — the run coordinator, modelled as a total function on
  an environment `RunEnv` describing the behaviour of the external world
  (database, NATS connection, the spawned load-generator process, the CSV file
  on disk), producing an observable `RunOutcome`.

Python floats are modelled as rationals; Python `int()` truncation and
`round(x, n)` (round-half-to-even) are modelled explicitly.
-/

/-- Floor of a rational number, computed on the numerator/denominator pair. -/
def ratFloor (q : ℚ) : ℤ := Int.fdiv q.num q.den

/-- Python `int()` applied to a number: truncation toward zero. -/
def pyTrunc (q : ℚ) : ℤ := if 0 ≤ q then ratFloor q else -ratFloor (-q)

/-- Round to the nearest integer, ties to even — the rounding used by the Python built-in `round`. -/
def roundHalfEven (q : ℚ) : ℤ :=
  let f := ratFloor q
  if q - f < 1/2 then f
  else if 1/2 < q - f then f + 1
  else if f % 2 = 0 then f else f + 1

/-- Python `round(q, n)`: round to `n` decimal digits, ties to even. -/
def pyRound (q : ℚ) (n : ℕ) : ℚ := (roundHalfEven (q * 10 ^ n) : ℚ) / 10 ^ n

/-- The `measurements` sub-object of a streamed health sample
(`collector_client.py`). Each field is `none` when the JSON key is absent.
`otherKeys` records whether the JSON object carries further keys beyond the
four the aggregation reads, so Python dict truthiness can be modelled. -/
structure Measurements where
  active_connections : Option ℚ := none
  max_connections : Option ℚ := none
  cache_hit_rate : Option ℚ := none
  sequential_scans : Option ℚ := none
  otherKeys : Bool := false
deriving DecidableEq

/-- Python truthiness of the `measurements` dict: it is truthy iff nonempty. -/
def Measurements.truthy (m : Measurements) : Bool :=
  m.active_connections.isSome || m.max_connections.isSome ||
    m.cache_hit_rate.isSome || m.sequential_scans.isSome || m.otherKeys

/-- One decoded health sample from the `metrics` NATS topic, as buffered by
`CollectorClient.start_collecting`. Top-level numeric fields are `none` when
absent from the JSON payload. -/
structure Sample where
  measurements : Option Measurements := none
  connection_health : Option ℚ := none
  query_health : Option ℚ := none
  cache_health : Option ℚ := none
  health_score : Option ℚ := none
deriving DecidableEq

/-- Python expression `metric.get` of the measurements key followed by the
`if measurements:` guard: true iff the key is present with a nonempty dict. -/
def measTruthy (s : Sample) : Bool :=
  match s.measurements with
  | none => false
  | some m => m.truthy

/-- The `connection_samples` list built by `aggregate_metrics`:
`(active, max)` pairs with Python `.get` defaults 0 and 100. -/
def connSamples (buffer : List Sample) : List (ℚ × ℚ) :=
  buffer.filterMap fun s =>
    match s.measurements with
    | none => none
    | some m =>
      if m.truthy then
        some (m.active_connections.getD 0, m.max_connections.getD 100)
      else none

/-- The `cache_samples` list built by `aggregate_metrics`: the `cache_hit_rate`
reading (default 0) is kept only when strictly positive. -/
def cacheSamples (buffer : List Sample) : List ℚ :=
  buffer.filterMap fun s =>
    match s.measurements with
    | none => none
    | some m =>
      if m.truthy then
        if 0 < m.cache_hit_rate.getD 0 then some (m.cache_hit_rate.getD 0)
        else none
      else none

/-- The `scan_samples` list built by `aggregate_metrics`: pairs
`(sequential, index)` where the index component is the hard-coded 0 of
`collector_client.py` line 133. -/
def scanSamples (buffer : List Sample) : List (ℚ × ℚ) :=
  buffer.filterMap fun s =>
    match s.measurements with
    | none => none
    | some m =>
      if m.truthy then some (m.sequential_scans.getD 0, 0)
      else none

/-- The `health_samples` list built by `aggregate_metrics`: tuples
`(query, connection, cache, overall)` retained when
`any([connection_health, query_health, cache_health, overall_health])`,
i.e. when at least one of the four readings (default 0) is non-zero. -/
def healthSamples (buffer : List Sample) : List (ℚ × ℚ × ℚ × ℚ) :=
  buffer.filterMap fun s =>
    let ch := s.connection_health.getD 0
    let qh := s.query_health.getD 0
    let cah := s.cache_health.getD 0
    let oh := s.health_score.getD 0
    if ch ≠ 0 ∨ qh ≠ 0 ∨ cah ≠ 0 ∨ oh ≠ 0 then some (qh, ch, cah, oh)
    else none

/-- The aggregated health record returned by `aggregate_metrics`; each field is
`none` when the corresponding key is not put into the Python dict. -/
structure Agg where
  active_connections : Option ℤ := none
  max_connections : Option ℚ := none
  cache_hit_rate : Option ℚ := none
  sequential_scans : Option ℤ := none
  index_scans : Option ℤ := none
  query_health : Option ℚ := none
  connection_health : Option ℚ := none
  cache_health : Option ℚ := none
  overall_health : Option ℚ := none
deriving DecidableEq

/-- Model of `CollectorClient.aggregate_metrics`: returns `None` on an empty buffer,
otherwise per-group means as computed by `collector_client.py` lines 117-185. -/
def aggregate_metrics (buffer : List Sample) : Option Agg :=
  if buffer.isEmpty then none
  else
    let conn := connSamples buffer
    let cache := cacheSamples buffer
    let scans := scanSamples buffer
    let health := healthSamples buffer
    some {
      active_connections :=
        if conn.isEmpty then none
        else some (pyTrunc ((conn.map Prod.fst).sum / (conn.length : ℚ)))
      max_connections :=
        if conn.isEmpty then none else (conn.head?).map Prod.snd
      cache_hit_rate :=
        if cache.isEmpty then none
        else some (pyRound (cache.sum / (cache.length : ℚ)) 4)
      sequential_scans :=
        if scans.isEmpty then none
        else some (pyTrunc ((scans.map Prod.fst).sum / (scans.length : ℚ)))
      index_scans := if scans.isEmpty then none else some 0
      query_health :=
        if health.isEmpty then none
        else some (pyRound ((health.map fun h => h.1).sum / (health.length : ℚ)) 2)
      connection_health :=
        if health.isEmpty then none
        else some (pyRound ((health.map fun h => h.2.1).sum / (health.length : ℚ)) 2)
      cache_health :=
        if health.isEmpty then none
        else some (pyRound ((health.map fun h => h.2.2.1).sum / (health.length : ℚ)) 2)
      overall_health :=
        if health.isEmpty then none
        else some (pyRound ((health.map fun h => h.2.2.2).sum / (health.length : ℚ)) 2) }

/-- Python dict truthiness of the aggregated record: nonempty iff some field
was set (`if db_metrics:` in `benchmark_runner.py`). -/
def aggTruthy (a : Agg) : Bool :=
  a.active_connections.isSome || a.max_connections.isSome ||
    a.cache_hit_rate.isSome || a.sequential_scans.isSome ||
    a.index_scans.isSome || a.query_health.isSome ||
    a.connection_health.isSome || a.cache_health.isSome ||
    a.overall_health.isSome

unseal Rat.mul Rat.inv Rat.add Rat.sub in
example : pyRound (53/60) 4 = 8833/10000 ∧ pyTrunc (21/2) = 10 ∧ pyTrunc (-21/2) = -10 := by
  decide

/-! ### CSV metrics extractor (`locust_collector.py`) -/

/-- Strip leading and trailing whitespace from a character list —
Python `str.strip()`. -/
def listTrim (cs : List Char) : List Char :=
  ((cs.dropWhile Char.isWhitespace).reverse.dropWhile Char.isWhitespace).reverse

/-- Python `str.strip()` on a string. -/
def pyStrip (s : String) : String := String.mk (listTrim s.toList)

/-- Split a character list at the first space: Python `str.split(" ", 1)`
restricted to strings known to contain a space. -/
def splitFirstSpace : List Char → List Char × List Char
  | [] => ([], [])
  | c :: rest =>
    if c = ' ' then ([], rest)
    else
      let p := splitFirstSpace rest
      (c :: p.1, p.2)

/-- Python `name.split(" ", 1)` as a `(method, endpoint)` pair, used when the
name is known to contain a space. -/
def pySplit1 (s : String) : String × String :=
  let p := splitFirstSpace s.toList
  (String.mk p.1, String.mk p.2)

/-- Value of a nonempty all-digit character list. -/
def digitsToNat (cs : List Char) : ℕ :=
  cs.foldl (fun acc c => acc * 10 + (c.toNat - 48)) 0

/-- Parse a nonempty run of decimal digits. -/
def parseDigits (cs : List Char) : Option ℕ :=
  if !cs.isEmpty && cs.all Char.isDigit then some (digitsToNat cs) else none

/-- Python `int(s)` on a string: optional sign, then decimal digits;
anything else raises `ValueError`, modelled as `none`. -/
def parsePyInt (s : String) : Option ℤ :=
  match listTrim s.toList with
  | [] => none
  | c :: rest =>
    if c = '-' then (parseDigits rest).map fun n => -(n : ℤ)
    else if c = '+' then (parseDigits rest).map fun n => (n : ℤ)
    else (parseDigits (c :: rest)).map fun n => (n : ℤ)

/-- Unsigned decimal literal accepted by Python `float()`: digits, optionally
followed by a point and further digits, with at least one digit present. -/
def parseUnsignedFloat (cs : List Char) : Option ℚ :=
  let intPart := cs.takeWhile Char.isDigit
  let rest := cs.dropWhile Char.isDigit
  match rest with
  | [] => if intPart.isEmpty then none else some (digitsToNat intPart : ℚ)
  | c :: frac =>
    if c = '.' then
      if frac.all Char.isDigit && (!intPart.isEmpty || !frac.isEmpty) then
        some ((digitsToNat intPart : ℚ) + (digitsToNat frac : ℚ) / (10 : ℚ) ^ frac.length)
      else none
    else none

/-- Python `float(s)` on a string: optional sign then an unsigned decimal
literal; anything else raises `ValueError`, modelled as `none`. -/
def parsePyFloat (s : String) : Option ℚ :=
  match listTrim s.toList with
  | '-' :: rest => (parseUnsignedFloat rest).map Neg.neg
  | '+' :: rest => parseUnsignedFloat rest
  | cs => parseUnsignedFloat cs

/-- One data row of the `<prefix>_stats.csv` file as produced by
`csv.DictReader`: each field is the cell under the given header column, or
`none` when the column is absent from the file. -/
structure CsvRow where
  name : Option String := none
  method : Option String := none
  requestCount : Option String := none
  failureCount : Option String := none
  medianResponseTime : Option String := none
  averageResponseTime : Option String := none
  minResponseTime : Option String := none
  maxResponseTime : Option String := none
  p50 : Option String := none
  p95 : Option String := none
  p99 : Option String := none
  requestsPerSec : Option String := none
  failuresPerSec : Option String := none
deriving DecidableEq

/-- One extracted per-endpoint metrics record (`locust_collector.py`
lines 58-72). -/
structure EndpointMetric where
  endpoint : String
  method : String
  request_count : ℤ
  failure_count : ℤ
  median_response_time : ℚ
  average_response_time : ℚ
  min_response_time : ℚ
  max_response_time : ℚ
  p50_response_time : ℚ
  p95_response_time : ℚ
  p99_response_time : ℚ
  requests_per_second : ℚ
  failures_per_second : ℚ
deriving DecidableEq

/-- Python `int(row.get(col, 0))`: a missing column yields the integer default 0,
a present cell is parsed and may fail. -/
def intField (v : Option String) : Option ℤ :=
  match v with
  | none => some 0
  | some s => parsePyInt s

/-- Python `float(row.get(col, 0))`: a missing column yields 0.0, a present cell is
parsed and may fail. -/
def floatField (v : Option String) : Option ℚ :=
  match v with
  | none => some 0
  | some s => parsePyFloat s

/-- Python `float(row.get("50%", row.get("Median Response Time", 0)))`: the nested
default of `locust_collector.py` line 67. -/
def p50Field (r : CsvRow) : Option ℚ :=
  match r.p50 with
  | some s => parsePyFloat s
  | none => floatField r.medianResponseTime

/-- Build one `EndpointMetric` from a CSV row; `none` models the `ValueError`
path in which the row is logged and dropped. -/
def parseRow (r : CsvRow) : Option EndpointMetric :=
  let name := pyStrip ((r.name).getD (""))
  let method0 := pyStrip ((r.method).getD ("GET"))
  let me : String × String :=
    if name.toList.contains ' ' then pySplit1 name else (method0, name)
  do
    let rc ← intField r.requestCount
    let fc ← intField r.failureCount
    let med ← floatField r.medianResponseTime
    let avg ← floatField r.averageResponseTime
    let mn ← floatField r.minResponseTime
    let mx ← floatField r.maxResponseTime
    let p50 ← p50Field r
    let p95 ← floatField r.p95
    let p99 ← floatField r.p99
    let rps ← floatField r.requestsPerSec
    let fps ← floatField r.failuresPerSec
    pure {
      endpoint := me.2
      method := me.1
      request_count := rc
      failure_count := fc
      median_response_time := med
      average_response_time := avg
      min_response_time := mn
      max_response_time := mx
      p50_response_time := p50
      p95_response_time := p95
      p99_response_time := p99
      requests_per_second := rps
      failures_per_second := fps }

/-- Model of `LocustCollector.extract_metrics`. The argument models the state of the
`<prefix>_stats.csv` file: `none` when `os.path.exists` is false, otherwise
the list of data rows read by `csv.DictReader`. A row whose raw `Name` cell
equals `Aggregated` is skipped; other rows are parsed with per-row failure. -/
def extract_metrics (statsFile : Option (List CsvRow)) : List EndpointMetric :=
  match statsFile with
  | none => []
  | some rows =>
    rows.filterMap fun row =>
      if row.name = some ("Aggregated") then none else parseRow row

unseal Rat.mul Rat.inv Rat.add Rat.sub in
example : parsePyFloat ("12.5") = some (25/2) ∧ parsePyInt ("abc") = none ∧
    parsePyInt (" 42 ") = some 42 ∧ parsePyFloat (".5") = some (1/2) ∧
    parsePyFloat ("1.") = some 1 ∧ parsePyFloat (".") = none := by
  decide

/-! ### Run coordinator (`benchmark_runner.py`)

`run_single_test` is embedded as a total function over an environment
describing what the external world does during the run. Each Python statement
that can raise is modelled as a flag in the environment; the `try/except`
boundary of `run_single_test` becomes an `Except` value whose error carries
the observable state accumulated before the exception. -/

/-- Behaviour of the launched load-generator process after it survives the
3-second grace check in `start_locust`. -/
inductive ProcResult where
  /-- the `poll()` call turns non-`None` before the safety deadline, with this exit
  code; `wait(timeout=30)` then returns immediately. -/
  | exitsDuringLoop (code : ℤ)
  /-- still alive when `time.time() - start > duration + 60` breaks the loop,
  but exits with this code inside the 30-second `wait` that follows. -/
  | exitsDuringWait (code : ℤ)
  /-- still alive at the deadline and beyond the 30-second `wait`:
  `subprocess.TimeoutExpired` is raised and caught, `wait_for_locust_completion`
  returns `False`. -/
  | neverExits
deriving DecidableEq

/-- Result of the launch attempt made by `start_locust`. -/
inductive LaunchResult where
  /-- the `subprocess.Popen` call raises; caught inside `start_locust`, which returns
  `False` with `self.locust_process` still `None`. -/
  | popenRaises
  /-- the process exits within the 3-second grace window with this code;
  `start_locust` returns `False` with `self.locust_process` set. -/
  | immediateExit (code : ℤ)
  /-- the process is alive after the grace window and then behaves as given. -/
  | started (proc : ProcResult)
deriving DecidableEq

/-- Environment of one benchmark run: which fallible steps raise, how the
external process behaves, the state of the stats CSV at extraction time and
the collector buffer contents at aggregation time. -/
structure RunEnv where
  createRunRaises : Bool := false
  connectRaises : Bool := false
  startCollectingRaises : Bool := false
  launch : LaunchResult := LaunchResult.popenRaises
  statsFile : Option (List CsvRow) := none
  buffer : List Sample := []
  insertLocustRaises : Bool := false
  insertCollectorRaises : Bool := false
  createSummaryRaises : Bool := false
deriving DecidableEq

/-- Observable outcome of `run_single_test`. -/
structure RunOutcome where
  /-- the boolean return value -/
  success : Bool := false
  /-- whether `db.create_benchmark_run` completed -/
  runRecordCreated : Bool := false
  /-- whether `self.locust_process` was assigned a process handle -/
  procHandleSet : Bool := false
  /-- whether `stop_locust` was invoked -/
  stopLocustInvoked : Bool := false
  /-- whether `terminate()` was actually sent inside `stop_locust` -/
  terminateSent : Bool := false
  /-- whether `extract_metrics` was reached, with its result -/
  csvExtracted : Option (List EndpointMetric) := none
  /-- whether `db.insert_locust_metrics` completed -/
  locustMetricsInserted : Bool := false
  /-- whether `db.insert_collector_metrics` completed -/
  healthInserted : Bool := false
  /-- whether `db.create_run_summary` completed -/
  summaryCreated : Bool := false
  /-- the cooldown `time.sleep` ran -/
  cooldownSlept : Bool := false
deriving DecidableEq

/-- The check `returncode == 0` as made by `wait_for_locust_completion`, combined
with its `TimeoutExpired` branch. -/
def procCleanExit : ProcResult → Bool
  | ProcResult.exitsDuringLoop code => code == 0
  | ProcResult.exitsDuringWait code => code == 0
  | ProcResult.neverExits => false

/-- Lines 189-192 of `benchmark_runner.py`: `if locust_metrics:` insert them
(the insert may raise), otherwise only log a warning. -/
def insertLocustStep (env : RunEnv) (metrics : List EndpointMetric)
    (o : RunOutcome) : Except RunOutcome RunOutcome :=
  if metrics.isEmpty then Except.ok o
  else if env.insertLocustRaises then Except.error o
  else Except.ok { o with locustMetricsInserted := true }

/-- Lines 195-197 of `benchmark_runner.py`: aggregate the collector buffer and
`if db_metrics:` insert the aggregate (the insert may raise). -/
def insertCollectorStep (env : RunEnv) (o : RunOutcome) :
    Except RunOutcome RunOutcome :=
  match aggregate_metrics env.buffer with
  | none => Except.ok o
  | some a =>
    if aggTruthy a then
      if env.insertCollectorRaises then Except.error o
      else Except.ok { o with healthInserted := true }
    else Except.ok o

/-- Lines 200-208 of `benchmark_runner.py`: `db.create_run_summary` (which may
raise), the success log, the conditional cooldown sleep, and `return True`. -/
def summaryStep (env : RunEnv) (cooldown : ℕ) (o : RunOutcome) :
    Except RunOutcome RunOutcome :=
  if env.createSummaryRaises then Except.error o
  else
    Except.ok { o with
      summaryCreated := true
      success := true
      cooldownSlept := cooldown != 0 }

/-- The body of the `try` block of `run_single_test`. An `Except.error` is a raised
exception carrying the observable state at the moment it is raised; an
`Except.ok` is a `return` from the `try` block. -/
def runBody (env : RunEnv) (cooldown : ℕ) : Except RunOutcome RunOutcome :=
  let o0 : RunOutcome := {}
  if env.createRunRaises then Except.error o0
  else
    let o1 : RunOutcome := { o0 with runRecordCreated := true }
    if env.connectRaises then Except.error o1
    else if env.startCollectingRaises then Except.error o1
    else
      match env.launch with
      | LaunchResult.popenRaises => Except.ok o1
      | LaunchResult.immediateExit _ => Except.ok { o1 with procHandleSet := true }
      | LaunchResult.started proc =>
        let o2 : RunOutcome := { o1 with procHandleSet := true }
        if !procCleanExit proc then
          Except.ok { o2 with stopLocustInvoked := true, terminateSent := true }
        else
          let metrics := extract_metrics env.statsFile
          let o3 : RunOutcome := { o2 with csvExtracted := some metrics }
          match insertLocustStep env metrics o3 with
          | Except.error o => Except.error o
          | Except.ok o4 =>
            match insertCollectorStep env o4 with
            | Except.error o => Except.error o
            | Except.ok o5 => summaryStep env cooldown o5

/-- Model of `BenchmarkRunner.run_single_test`: the `try` body together with the
`except Exception` handler, which logs, calls `stop_locust` (which sends
`terminate()` only when a process handle exists) and returns `False`. -/
def run_single_test (env : RunEnv) (cooldown : ℕ) : RunOutcome :=
  match runBody env cooldown with
  | Except.ok o => o
  | Except.error o =>
    { o with
      success := false
      stopLocustInvoked := true
      terminateSent := o.terminateSent || o.procHandleSet }

/-- Model of `BenchmarkRunner.run_benchmark_suite`: runs every concurrency level in
order, counting successes, and returns the count together with the final
`success == len(user_counts)` boolean. Each list element is the environment of
one run. -/
def run_benchmark_suite (envs : List RunEnv) (cooldown : ℕ) : ℕ × Bool :=
  let success := envs.foldl
    (fun acc env => if (run_single_test env cooldown).success then acc + 1 else acc) 0
  (success, success == envs.length)

/-! ### Concrete fixtures used by counterexamples and witnesses -/

/-- A sample whose `measurements` object carries only a `cache_hit_rate`. -/
def sampleCacheRate (v : ℚ) : Sample :=
  { measurements := some { cache_hit_rate := some v } }

/-- The five-sample buffer of end-to-end scenario 2. -/
def ex5 : List Sample :=
  [sampleCacheRate (9/10), sampleCacheRate 0, sampleCacheRate (8/10),
    sampleCacheRate 0, sampleCacheRate (19/20)]

/-- A sample reporting only `max_connections = 50`. -/
def sMax50 : Sample := { measurements := some { max_connections := some 50 } }

/-- A sample reporting only `max_connections = 200`. -/
def sMax200 : Sample := { measurements := some { max_connections := some 200 } }

/-- A sample reporting only `health_score = 10`. -/
def sHealth10 : Sample := { health_score := some 10 }

/-- A sample reporting only `health_score = 40`. -/
def sHealth40 : Sample := { health_score := some 40 }

/-- A sample reporting only `active_connections = 10`. -/
def sActive10 : Sample := { measurements := some { active_connections := some 10 } }

/-- A sample reporting only `sequential_scans = 5`. -/
def sSeq5 : Sample := { measurements := some { sequential_scans := some 5 } }

/-- A sample whose `measurements` key is present but holds an empty object. -/
def sEmptyMeas : Sample := { measurements := some {} }

/-- A well-formed CSV data row for `GET /api/posts`. -/
def goodRow : CsvRow :=
  { name := some ("GET /api/posts")
    requestCount := some ("120")
    failureCount := some ("0")
    medianResponseTime := some ("45")
    averageResponseTime := some ("50.5")
    minResponseTime := some ("1")
    maxResponseTime := some ("200")
    p50 := some ("45")
    p95 := some ("120")
    p99 := some ("180")
    requestsPerSec := some ("12.0")
    failuresPerSec := some ("0.0") }

/-- The pre-aggregated total row written by the load generator. -/
def aggRowCsv : CsvRow :=
  { name := some ("Aggregated"), requestCount := some ("120") }

/-- A data row whose `Request Count` cell cannot be parsed as an integer. -/
def badRow : CsvRow :=
  { name := some ("GET /bad"), requestCount := some ("abc") }

/-- Environment: the load generator exits with code 1 after running, a valid
CSV is on disk. -/
def envExitNonzero : RunEnv :=
  { launch := LaunchResult.started (ProcResult.exitsDuringLoop 1)
    statsFile := some [goodRow] }

/-- Environment: the load generator hangs past the safety deadline and past
the 30-second wait, a valid CSV is on disk. -/
def envHangs : RunEnv :=
  { launch := LaunchResult.started ProcResult.neverExits
    statsFile := some [goodRow] }

/-- Environment: the load generator exits within the 3-second grace window. -/
def envImmediateExit : RunEnv := { launch := LaunchResult.immediateExit 1 }

/-- Environment: `db.create_benchmark_run` raises. -/
def envCreateRaises : RunEnv := { createRunRaises := true }

/-! ### Helper lemmas -/

theorem perm_isEmpty {α : Type} {l1 l2 : List α} (h : List.Perm l1 l2) :
    l1.isEmpty = l2.isEmpty := by
  cases l1 with
  | nil =>
    cases l2 with
    | nil => rfl
    | cons b t => simpa using h.length_eq
  | cons a t =>
    cases l2 with
    | nil => simpa using h.length_eq
    | cons b t2 => rfl

theorem length_filterMap_eq_countP {α β : Type} (f : α → Option β) (l : List α) :
    (l.filterMap f).length = l.countP fun a => (f a).isSome := by
  induction l with
  | nil => rfl
  | cons a t ih =>
    cases h : f a <;>
      simp [List.filterMap_cons, h, List.countP_cons, ih]

theorem foldl_success_count (envs : List RunEnv) (cd n : ℕ) :
    envs.foldl (fun acc env => if (run_single_test env cd).success then acc + 1 else acc) n
      = n + envs.countP fun env => (run_single_test env cd).success := by
  induction envs generalizing n with
  | nil => simp
  | cons e t ih =>
    by_cases h : (run_single_test e cd).success = true
    · simp [List.countP_cons, ih, h]
      omega
    · simp [List.countP_cons, ih, h]

theorem suite_success_count (envs : List RunEnv) (cd : ℕ) :
    (run_benchmark_suite envs cd).1
      = envs.countP fun env => (run_single_test env cd).success := by
  simpa [run_benchmark_suite] using foldl_success_count envs cd 0

/-! ### Claims -/

/-- C6: `aggregate_metrics` on an empty buffer returns `none` ("no data"),
never a zeroed-out record; on any non-empty buffer it returns a record. -/
theorem claim_C6 (b : List Sample) (hb : b ≠ []) :
    aggregate_metrics [] = none ∧ (aggregate_metrics b).isSome = true := by
  refine ⟨rfl, ?_⟩
  cases b with
  | nil => exact absurd rfl hb
  | cons a t => simp [aggregate_metrics]

theorem claim_C6_witness :
    aggregate_metrics [] = none ∧ (aggregate_metrics [sHealth10]).isSome = true :=
  claim_C6 [sHealth10] (List.cons_ne_nil _ _)

/-- C7: `extract_metrics` on a missing stats file returns an empty list (the
embedding is total, so no exception is possible), and its result is
indistinguishable from that on a file holding a header but zero data rows. -/
theorem claim_C7 :
    extract_metrics none = [] ∧ extract_metrics (some []) = []
      ∧ extract_metrics none = extract_metrics (some []) :=
  ⟨rfl, rfl, rfl⟩

/-- C8: `extract_metrics` yields exactly one `EndpointMetric` per data row
that is not the aggregated-total row and parses; an aggregated-total row is
dropped wherever it occurs; an unparseable row is dropped while the rows
before and after it are still extracted. -/
theorem claim_C8 (rows xs ys : List CsvRow) (r b : CsvRow)
    (hr : r.name = some ("Aggregated"))
    (hb1 : b.name ≠ some ("Aggregated"))
    (hb2 : parseRow b = none) :
    (extract_metrics (some rows)).length
      = rows.countP (fun row =>
          decide (row.name ≠ some ("Aggregated")) && (parseRow row).isSome)
    ∧ extract_metrics (some (xs ++ r :: ys)) = extract_metrics (some (xs ++ ys))
    ∧ extract_metrics (some (xs ++ b :: ys))
        = extract_metrics (some xs) ++ extract_metrics (some ys) := by
  refine ⟨?_, ?_, ?_⟩
  · rw [extract_metrics, length_filterMap_eq_countP]
    refine (List.Perm.refl rows).countP_congr fun row _ => ?_
    by_cases hn : row.name = some ("Aggregated") <;> simp [hn]
  · simp [extract_metrics, List.filterMap_append, List.filterMap_cons, hr]
  · simp [extract_metrics, List.filterMap_append, List.filterMap_cons, hb1, hb2]

unseal Rat.mul Rat.inv Rat.add Rat.sub in
theorem claim_C8_witness :
    (aggRowCsv.name = some ("Aggregated"))
    ∧ (badRow.name ≠ some ("Aggregated"))
    ∧ parseRow badRow = none
    ∧ ((extract_metrics (some [goodRow, aggRowCsv, badRow])).length
        = [goodRow, aggRowCsv, badRow].countP (fun row =>
            decide (row.name ≠ some ("Aggregated")) && (parseRow row).isSome)
      ∧ extract_metrics (some ([goodRow] ++ aggRowCsv :: [goodRow]))
          = extract_metrics (some ([goodRow] ++ [goodRow]))
      ∧ extract_metrics (some ([goodRow] ++ badRow :: [goodRow]))
          = extract_metrics (some [goodRow]) ++ extract_metrics (some [goodRow])) :=
  ⟨rfl, by decide, by decide,
    claim_C8 [goodRow, aggRowCsv, badRow] [goodRow] [goodRow] aggRowCsv badRow
      rfl (by decide) (by decide)⟩

/-- C9: an exception raised anywhere inside the `try` body of
`run_single_test` is caught at the run boundary: the run returns `False`,
`stop_locust` is invoked (sending `terminate()` whenever a process handle
exists), and the suite driver still counts every other run — the successes of
a suite containing the failing run are exactly those of the runs before plus
those of the runs after it. -/
theorem claim_C9 (env : RunEnv) (cd : ℕ) (o : RunOutcome)
    (h : runBody env cd = Except.error o) :
    (run_single_test env cd).success = false
    ∧ (run_single_test env cd).stopLocustInvoked = true
    ∧ (o.procHandleSet = true → (run_single_test env cd).terminateSent = true)
    ∧ ∀ pre post : List RunEnv,
        (run_benchmark_suite (pre ++ env :: post) cd).1
          = (run_benchmark_suite pre cd).1 + (run_benchmark_suite post cd).1 := by
  have hrun : run_single_test env cd
      = { o with
            success := false
            stopLocustInvoked := true
            terminateSent := o.terminateSent || o.procHandleSet } := by
    simp [run_single_test, h]
  refine ⟨by simp [hrun], by simp [hrun], ?_, ?_⟩
  · intro hp
    simp [hrun, hp]
  · intro pre post
    simp [suite_success_count, List.countP_append, List.countP_cons, hrun]

theorem claim_C9_witness :
    runBody envCreateRaises 30 = Except.error {}
    ∧ ((run_single_test envCreateRaises 30).success = false
      ∧ (run_single_test envCreateRaises 30).stopLocustInvoked = true
      ∧ (run_benchmark_suite ([envHangs] ++ envCreateRaises :: [envHangs]) 30).1
          = (run_benchmark_suite [envHangs] 30).1
            + (run_benchmark_suite [envHangs] 30).1) := by
  have h : runBody envCreateRaises 30 = Except.error {} := rfl
  have c := claim_C9 envCreateRaises 30 {} h
  exact ⟨h, c.1, c.2.1, c.2.2.2 [envHangs] [envHangs]⟩

theorem beq_int_eq_false {a b : ℤ} (h : a ≠ b) : (a == b) = false := by
  simpa using h

/-- On a run whose process launch succeeds and exits cleanly and whose insert
and summary steps do not raise, `runBody` reaches the end of the `try` block:
extraction, conditional inserts, summary, success, cooldown. -/
theorem runBody_clean (env : RunEnv) (cd : ℕ) (proc : ProcResult)
    (h1 : env.createRunRaises = false) (h2 : env.connectRaises = false)
    (h3 : env.startCollectingRaises = false)
    (hl : env.launch = LaunchResult.started proc)
    (hc : procCleanExit proc = true)
    (h5 : env.insertLocustRaises = false)
    (h6 : env.insertCollectorRaises = false)
    (h7 : env.createSummaryRaises = false) :
    runBody env cd = Except.ok
      { success := true
        runRecordCreated := true
        procHandleSet := true
        csvExtracted := some (extract_metrics env.statsFile)
        locustMetricsInserted := !(extract_metrics env.statsFile).isEmpty
        healthInserted :=
          match aggregate_metrics env.buffer with
          | none => false
          | some a => aggTruthy a
        summaryCreated := true
        cooldownSlept := cd != 0 } := by
  by_cases hm : (extract_metrics env.statsFile).isEmpty = true
  · rcases hagg : aggregate_metrics env.buffer with _ | a
    · simp [runBody, insertLocustStep, insertCollectorStep, summaryStep, h1, h2, h3, hl, hc, h5, h6, h7, hm, hagg]
    · by_cases ht : aggTruthy a = true <;>
        simp [runBody, insertLocustStep, insertCollectorStep, summaryStep, h1, h2, h3, hl, hc, h5, h6, h7, hm, hagg, ht]
  · rcases hagg : aggregate_metrics env.buffer with _ | a
    · simp [runBody, insertLocustStep, insertCollectorStep, summaryStep, h1, h2, h3, hl, hc, h5, h6, h7, hm, hagg]
    · by_cases ht : aggTruthy a = true <;>
        simp [runBody, insertLocustStep, insertCollectorStep, summaryStep, h1, h2, h3, hl, hc, h5, h6, h7, hm, hagg, ht]

unseal Rat.mul Rat.inv Rat.add Rat.sub in
/-- C1 counterexample: the load generator exits with code 1 after running
(having survived the launch grace window) and a parseable CSV is on disk, yet
the coordinator never reaches metrics extraction: no EndpointMetric rows are
inserted and no RunSummary is computed. -/
theorem claim_C1_counterexample :
    extract_metrics envExitNonzero.statsFile ≠ []
    ∧ (run_single_test envExitNonzero 30).csvExtracted = none
    ∧ (run_single_test envExitNonzero 30).locustMetricsInserted = false
    ∧ (run_single_test envExitNonzero 30).summaryCreated = false := by
  decide

/-- C1 amended: if the process exits with a non-zero code after running (in
the keep-alive loop or in the bounded wait) and no earlier step raised, the
run stops the process and returns failure without extracting CSV metrics,
without inserting EndpointMetric rows and without computing a RunSummary. -/
theorem claim_C1_amended (env : RunEnv) (cd : ℕ) (code : ℤ)
    (h1 : env.createRunRaises = false) (h2 : env.connectRaises = false)
    (h3 : env.startCollectingRaises = false)
    (h4 : env.launch = LaunchResult.started (ProcResult.exitsDuringLoop code)
        ∨ env.launch = LaunchResult.started (ProcResult.exitsDuringWait code))
    (h5 : code ≠ 0) :
    run_single_test env cd
      = { runRecordCreated := true
          procHandleSet := true
          stopLocustInvoked := true
          terminateSent := true } := by
  have hb : (code == 0) = false := beq_int_eq_false h5
  rcases h4 with h4 | h4 <;>
    simp [run_single_test, runBody, h1, h2, h3, h4, procCleanExit, hb]

theorem claim_C1_witness :
    ((1 : ℤ) ≠ 0
      ∧ envExitNonzero.launch
          = LaunchResult.started (ProcResult.exitsDuringLoop 1))
    ∧ run_single_test envExitNonzero 30
        = { runRecordCreated := true
            procHandleSet := true
            stopLocustInvoked := true
            terminateSent := true } :=
  ⟨⟨by decide, rfl⟩,
    claim_C1_amended envExitNonzero 30 1 rfl rfl rfl (Or.inl rfl) (by decide)⟩

unseal Rat.mul Rat.inv Rat.add Rat.sub in
/-- C2 counterexample: the load generator hangs past the safety deadline and
past the bounded wait, with a parseable CSV on disk: the coordinator does
force-terminate the process, but metrics extraction is never attempted and no
summary is computed. -/
theorem claim_C2_counterexample :
    (run_single_test envHangs 30).terminateSent = true
    ∧ extract_metrics envHangs.statsFile ≠ []
    ∧ (run_single_test envHangs 30).csvExtracted = none
    ∧ (run_single_test envHangs 30).summaryCreated = false := by
  decide

/-- C2 amended: a process still alive past `duration + 60` makes the
keep-alive loop break and the coordinator wait up to 30 more seconds. If the
process never exits, it is force-terminated and the run fails with no metrics
extraction; if it exits cleanly inside that extra wait, no termination happens
and the run completes normally, extraction included. -/
theorem claim_C2_amended (env1 env2 : RunEnv) (cd : ℕ)
    (h11 : env1.createRunRaises = false) (h12 : env1.connectRaises = false)
    (h13 : env1.startCollectingRaises = false)
    (h14 : env1.launch = LaunchResult.started ProcResult.neverExits)
    (h21 : env2.createRunRaises = false) (h22 : env2.connectRaises = false)
    (h23 : env2.startCollectingRaises = false)
    (h24 : env2.launch = LaunchResult.started (ProcResult.exitsDuringWait 0))
    (h25 : env2.insertLocustRaises = false)
    (h26 : env2.insertCollectorRaises = false)
    (h27 : env2.createSummaryRaises = false) :
    (run_single_test env1 cd
        = { runRecordCreated := true
            procHandleSet := true
            stopLocustInvoked := true
            terminateSent := true })
    ∧ ((run_single_test env2 cd).csvExtracted
          = some (extract_metrics env2.statsFile)
      ∧ (run_single_test env2 cd).success = true
      ∧ (run_single_test env2 cd).terminateSent = false) := by
  constructor
  · simp [run_single_test, runBody, h11, h12, h13, h14, procCleanExit]
  · have hb := runBody_clean env2 cd (ProcResult.exitsDuringWait 0)
      h21 h22 h23 h24 rfl h25 h26 h27
    simp [run_single_test, hb]

/-- Environment: the load generator survives past the deadline but exits
cleanly (code 0) inside the 30-second wait; a valid CSV is on disk. -/
def envLateExit : RunEnv :=
  { launch := LaunchResult.started (ProcResult.exitsDuringWait 0)
    statsFile := some [goodRow] }

unseal Rat.mul Rat.inv Rat.add Rat.sub in
theorem claim_C2_witness :
    (envHangs.launch = LaunchResult.started ProcResult.neverExits
      ∧ envLateExit.launch
          = LaunchResult.started (ProcResult.exitsDuringWait 0))
    ∧ ((run_single_test envHangs 30
        = { runRecordCreated := true
            procHandleSet := true
            stopLocustInvoked := true
            terminateSent := true })
      ∧ ((run_single_test envLateExit 30).csvExtracted
            = some (extract_metrics envLateExit.statsFile)
        ∧ (run_single_test envLateExit 30).success = true
        ∧ (run_single_test envLateExit 30).terminateSent = false)) :=
  ⟨⟨rfl, rfl⟩,
    claim_C2_amended envHangs envLateExit 30
      rfl rfl rfl rfl rfl rfl rfl rfl rfl rfl rfl⟩

theorem insertLocustStep_error_eq {env : RunEnv} {m : List EndpointMetric}
    {o o' : RunOutcome} (h : insertLocustStep env m o = Except.error o') :
    o' = o := by
  unfold insertLocustStep at h
  split at h
  · cases h
  · split at h
    · cases h; rfl
    · cases h

theorem insertLocustStep_ok_inv {env : RunEnv} {m : List EndpointMetric}
    {o o' : RunOutcome} (h : insertLocustStep env m o = Except.ok o') :
    o'.cooldownSlept = o.cooldownSlept ∧ o'.success = o.success := by
  unfold insertLocustStep at h
  split at h
  · cases h; exact ⟨rfl, rfl⟩
  · split at h
    · cases h
    · cases h; exact ⟨rfl, rfl⟩

theorem insertCollectorStep_error_eq {env : RunEnv} {o o' : RunOutcome}
    (h : insertCollectorStep env o = Except.error o') : o' = o := by
  unfold insertCollectorStep at h
  split at h
  · cases h
  · split at h
    · split at h
      · cases h; rfl
      · cases h
    · cases h

theorem insertCollectorStep_ok_inv {env : RunEnv} {o o' : RunOutcome}
    (h : insertCollectorStep env o = Except.ok o') :
    o'.cooldownSlept = o.cooldownSlept ∧ o'.success = o.success := by
  unfold insertCollectorStep at h
  split at h
  · cases h; exact ⟨rfl, rfl⟩
  · split at h
    · split at h
      · cases h
      · cases h; exact ⟨rfl, rfl⟩
    · cases h; exact ⟨rfl, rfl⟩

theorem summaryStep_error_eq {env : RunEnv} {cd : ℕ} {o o' : RunOutcome}
    (h : summaryStep env cd o = Except.error o') : o' = o := by
  unfold summaryStep at h
  split at h
  · cases h; rfl
  · cases h

theorem summaryStep_ok_inv {env : RunEnv} {cd : ℕ} {o o' : RunOutcome}
    (h : summaryStep env cd o = Except.ok o') :
    o'.cooldownSlept = (cd != 0) ∧ o'.success = true := by
  unfold summaryStep at h
  split at h
  · cases h
  · cases h; exact ⟨rfl, rfl⟩

theorem runBody_ok_cooldown (env : RunEnv) (cd : ℕ) (o : RunOutcome)
    (h : runBody env cd = Except.ok o) :
    o.cooldownSlept = (o.success && cd != 0) := by
  simp only [runBody] at h
  split at h
  · cases h
  · split at h
    · cases h
    · split at h
      · cases h
      · split at h
        · cases h; rfl
        · cases h; rfl
        · split at h
          · cases h; rfl
          · split at h
            · cases h
            · rename_i o4 hA
              split at h
              · cases h
              · rename_i o5 hB
                obtain ⟨hc5, hs5⟩ := summaryStep_ok_inv h
                rw [hc5, hs5, Bool.true_and]

theorem runBody_error_cooldown (env : RunEnv) (cd : ℕ) (o : RunOutcome)
    (h : runBody env cd = Except.error o) :
    o.cooldownSlept = false := by
  simp only [runBody] at h
  split at h
  · cases h; rfl
  · split at h
    · cases h; rfl
    · split at h
      · cases h; rfl
      · split at h
        · cases h
        · cases h
        · split at h
          · cases h
          · split at h
            · rename_i hA
              cases h
              rw [insertLocustStep_error_eq hA]
            · rename_i o4 hA
              split at h
              · rename_i hB
                cases h
                have h4 := insertLocustStep_ok_inv hA
                rw [insertCollectorStep_error_eq hB, h4.1]
              · rename_i o5 hB
                have h4 := insertLocustStep_ok_inv hA
                have h5 := insertCollectorStep_ok_inv hB
                rw [summaryStep_error_eq h, h5.1, h4.1]

/-- C5 counterexample: with the default cooldown of 30 seconds, a failed run
(here: the load generator exits within the grace window) proceeds to the next
concurrency level without any cooldown sleep. -/
theorem claim_C5_counterexample :
    (run_single_test envImmediateExit 30).success = false
    ∧ (run_single_test envImmediateExit 30).cooldownSlept = false := by
  decide

/-- C5 amended: the cooldown sleep runs exactly when the run succeeded and the
cooldown is positive; failed runs go straight to the next concurrency level. -/
theorem claim_C5_amended (env : RunEnv) (cd : ℕ) :
    (run_single_test env cd).cooldownSlept
      = ((run_single_test env cd).success && cd != 0) := by
  cases hr : runBody env cd with
  | ok o =>
    have hco := runBody_ok_cooldown env cd o hr
    simp [run_single_test, hr, hco]
  | error o =>
    have hco := runBody_error_cooldown env cd o hr
    simp [run_single_test, hr, hco]

/-- Drop the `max_connections` field of an aggregated record. -/
def Agg.eraseMax (a : Agg) : Agg := { a with max_connections := none }

unseal Rat.mul Rat.inv Rat.add Rat.sub in
/-- C3 counterexample: two buffers that are permutations of one another
produce different aggregates, because `max_connections` is read from
`connection_samples[0]` — the first sample in buffer order. -/
theorem claim_C3_counterexample :
    List.Perm [sMax50, sMax200] [sMax200, sMax50]
    ∧ aggregate_metrics [sMax50, sMax200] ≠ aggregate_metrics [sMax200, sMax50] :=
  ⟨List.Perm.swap sMax200 sMax50 [], by decide⟩

unseal Rat.mul Rat.inv Rat.add Rat.sub in
/-- C3 amended: the aggregate is invariant under permutation of the buffer in
every field except `max_connections`, which is taken from the first
measurement-bearing sample in buffer order; duplicated samples each contribute
independently — a buffer with a duplicated sample aggregates differently from
its deduplicated version. -/
theorem claim_C3_amended (b1 b2 : List Sample) (h : List.Perm b1 b2) :
    (aggregate_metrics b1).map Agg.eraseMax = (aggregate_metrics b2).map Agg.eraseMax
    ∧ aggregate_metrics [sHealth10, sHealth10, sHealth40]
        ≠ aggregate_metrics [sHealth10, sHealth40] := by
  constructor
  · have hconn : List.Perm (connSamples b1) (connSamples b2) := h.filterMap _
    have hcache : List.Perm (cacheSamples b1) (cacheSamples b2) := h.filterMap _
    have hscan : List.Perm (scanSamples b1) (scanSamples b2) := h.filterMap _
    have hhealth : List.Perm (healthSamples b1) (healthSamples b2) := h.filterMap _
    simp only [aggregate_metrics]
    rw [perm_isEmpty h, perm_isEmpty hconn, perm_isEmpty hcache, perm_isEmpty hscan,
        perm_isEmpty hhealth, hconn.length_eq, hcache.length_eq, hscan.length_eq,
        hhealth.length_eq, (hconn.map Prod.fst).sum_eq, hcache.sum_eq,
        (hscan.map Prod.fst).sum_eq, (hhealth.map fun x => x.1).sum_eq,
        (hhealth.map fun x => x.2.1).sum_eq, (hhealth.map fun x => x.2.2.1).sum_eq,
        (hhealth.map fun x => x.2.2.2).sum_eq]
    cases hb : b2.isEmpty <;> simp [hb, Agg.eraseMax]
  · decide

theorem claim_C3_witness :
    (aggregate_metrics [sMax50, sMax200]).map Agg.eraseMax
      = (aggregate_metrics [sMax200, sMax50]).map Agg.eraseMax
    ∧ aggregate_metrics [sHealth10, sHealth10, sHealth40]
        ≠ aggregate_metrics [sHealth10, sHealth40] :=
  claim_C3_amended [sMax50, sMax200] [sMax200, sMax50]
    (List.Perm.swap sMax200 sMax50 [])

/-- Following the words of the spec (§4.1/§3): the arithmetic mean of a field over
only the samples where the field is present and non-default (absent or
zero-valued readings are excluded). Used to compare the claimed behaviour with
the implemented aggregation. -/
def specPresentNonzeroMean (read : Sample → Option ℚ) (b : List Sample) :
    Option ℚ :=
  let vs := b.filterMap fun s =>
    match read s with
    | none => none
    | some v => if v ≠ 0 then some v else none
  if vs.isEmpty then none else some (vs.sum / (vs.length : ℚ))

/-- The `measurements.active_connections` reading of a sample. -/
def activeOf (s : Sample) : Option ℚ :=
  s.measurements.bind Measurements.active_connections

/-- The cache readings retained by the implementation, phrased the way the
spec describes them: present and positive `measurements.cache_hit_rate`
values, in buffer order. -/
def specCacheVals (b : List Sample) : List ℚ :=
  b.filterMap fun s =>
    match s.measurements with
    | none => none
    | some m =>
      match m.cache_hit_rate with
      | none => none
      | some r => if 0 < r then some r else none

theorem cacheSamples_eq_spec (b : List Sample) :
    cacheSamples b = specCacheVals b := by
  unfold cacheSamples specCacheVals
  congr 1
  funext s
  cases hm : s.measurements with
  | none => rfl
  | some m =>
    cases hc : m.cache_hit_rate with
    | none => simp [hc]
    | some r =>
      by_cases hr : 0 < r <;> simp [hc, hr, Measurements.truthy]

unseal Rat.mul Rat.inv Rat.add Rat.sub in
/-- C4 counterexample: for `active_connections` the implementation averages
over every measurement-bearing sample with absent readings defaulted to 0, so
a buffer of one sample reading 10 and one measurement-bearing sample with no
reading aggregates to 5, while the claimed present-and-non-default mean is
10. -/
theorem claim_C4_counterexample :
    ((aggregate_metrics [sActive10, sSeq5]).bind Agg.active_connections) = some 5
    ∧ specPresentNonzeroMean activeOf [sActive10, sSeq5] = some 10
    ∧ (5 : ℤ) ≠ 10 := by
  decide

unseal Rat.mul Rat.inv Rat.add Rat.sub in
/-- C4 amended: only the `cache_hit_rate` field follows the
present-and-non-default rule — it is the mean of exactly the present, positive
cache readings, rounded half-even to 4 digits (for the five-sample scenario
this gives 0.8833); other fields average over all qualifying samples with
absent readings defaulted (0, or 100 for `max_connections`). -/
theorem claim_C4_amended (b : List Sample) :
    ((aggregate_metrics b).bind Agg.cache_hit_rate)
      = (if (specCacheVals b).isEmpty then none
         else some (pyRound ((specCacheVals b).sum / ((specCacheVals b).length : ℚ)) 4))
    ∧ ((aggregate_metrics ex5).bind Agg.cache_hit_rate) = some (8833/10000) := by
  constructor
  · cases b with
    | nil => simp [aggregate_metrics, specCacheVals]
    | cons s t =>
      rw [← cacheSamples_eq_spec]
      simp [aggregate_metrics]
  · decide

/-- C10 counterexample: a buffer whose only sample carries a `measurements`
object that is an empty dict is non-empty and carries a measurements object,
yet the aggregate (an empty record) has no `index_scans` key at all. -/
theorem claim_C10_counterexample :
    sEmptyMeas.measurements.isSome = true
    ∧ (aggregate_metrics [sEmptyMeas]).isSome = true
    ∧ ((aggregate_metrics [sEmptyMeas]).bind Agg.index_scans) ≠ some 0 := by
  decide

/-- C10 amended: for every buffer containing at least one sample with a
non-empty (truthy) `measurements` object, the aggregate exists and its
`index_scans` is exactly 0, regardless of the sample contents — the value is
hard-coded, never read from the input. -/
theorem claim_C10_amended (b : List Sample)
    (h : ∃ s, s ∈ b ∧ measTruthy s = true) :
    (aggregate_metrics b).isSome = true
    ∧ (aggregate_metrics b).bind Agg.index_scans = some 0 := by
  obtain ⟨s, hs, ht⟩ := h
  have hb : b.isEmpty = false := by
    cases b with
    | nil => exact absurd hs (List.not_mem_nil s)
    | cons a t => rfl
  have hscan : (scanSamples b).isEmpty = false := by
    rcases hm : s.measurements with _ | m
    · rw [measTruthy, hm] at ht
      cases ht
    · have htr : m.truthy = true := by
        have := ht
        rw [measTruthy, hm] at this
        exact this
      have hmem : (m.sequential_scans.getD 0, (0 : ℚ)) ∈ scanSamples b := by
        apply List.mem_filterMap.mpr
        exact ⟨s, hs, by simp [hm, htr]⟩
      cases hl : scanSamples b with
      | nil => rw [hl] at hmem; cases hmem
      | cons x xs => rfl
  unfold aggregate_metrics
  rw [hb]
  exact ⟨rfl, by simp [hscan]⟩

theorem claim_C10_witness :
    (aggregate_metrics [sSeq5]).isSome = true
    ∧ (aggregate_metrics [sSeq5]).bind Agg.index_scans = some 0 :=
  claim_C10_amended [sSeq5] ⟨sSeq5, List.mem_singleton.mpr rfl, by decide⟩
